import Mathlib

set_option maxRecDepth 100000

set_option maxHeartbeats 1000000

/-!
Verification of the SAML 2.0 bearer-assertion token client of this repository
(`SFSF/sap_sf_client2.py`, `SFSF/sap_sf_client.py`, `SFSF/SFSF_OData_Query.py`).

Strings are modelled as lists of characters (`Str`).  Bytes and 32-bit words
are modelled as `Nat` with explicit reduction modulo `2 ^ 8` / `2 ^ 32`.
SHA-256, base64 and UTF-8 are implemented executably so that concrete
digests and encodings can be evaluated inside proofs.
-/

abbrev Str := List Char

/-- The double-quote character (code point 34), written via `Char.ofNat`. -/
def quoteChar : Char := Char.ofNat 34

/-! ## SHA-256 (bytes and 32-bit words as `Nat`, arithmetic mod `2 ^ 32`) -/

/-- `2 ^ 32`, the modulus for 32-bit word arithmetic. -/
def M32 : Nat := 4294967296

/-- Right rotation of a 32-bit word. -/
def rotr (n x : Nat) : Nat := ((x >>> n) ||| ((x <<< (32 - n)) % M32)) % M32

def sumA (x : Nat) : Nat := rotr 2 x ^^^ rotr 13 x ^^^ rotr 22 x

def sumE (x : Nat) : Nat := rotr 6 x ^^^ rotr 11 x ^^^ rotr 25 x

def sigLo (x : Nat) : Nat := rotr 7 x ^^^ rotr 18 x ^^^ (x >>> 3)

def sigHi (x : Nat) : Nat := rotr 17 x ^^^ rotr 19 x ^^^ (x >>> 10)

def chF (x y z : Nat) : Nat := (x &&& y) ^^^ ((x ^^^ 4294967295) &&& z)

def majF (x y z : Nat) : Nat := (x &&& y) ^^^ (x &&& z) ^^^ (y &&& z)

/-- The 64 SHA-256 round constants. -/
def k256 : List Nat :=
  [1116352408, 1899447441, 3049323471, 3921009573, 961987163,
   1508970993, 2453635748, 2870763221, 3624381080, 310598401,
   607225278, 1426881987, 1925078388, 2162078206, 2614888103,
   3248222580, 3835390401, 4022224774, 264347078, 604807628,
   770255983, 1249150122, 1555081692, 1996064986, 2554220882,
   2821834349, 2952996808, 3210313671, 3336571891, 3584528711,
   113926993, 338241895, 666307205, 773529912, 1294757372,
   1396182291, 1695183700, 1986661051, 2177026350, 2456956037,
   2730485921, 2820302411, 3259730800, 3345764771, 3516065817,
   3600352804, 4094571909, 275423344, 430227734, 506948616,
   659060556, 883997877, 958139571, 1322822218, 1537002063,
   1747873779, 1955562222, 2024104815, 2227730452, 2361852424,
   2428436474, 2756734187, 3204031479, 3329325298]

/-- The SHA-256 initial hash state. -/
def h256 : List Nat :=
  [1779033703, 3144134277, 1013904242,
   2773480762, 1359893119, 2600822924,
   528734635, 1541459225]

/-- Message-schedule extension: `recent` holds the last 16 words, newest
first.  The always-true bound check on `x` makes kernel reduction force each
word to a literal per iteration instead of building a deep lazy term. -/
def scheduleLoop : Nat → List Nat → List Nat → List Nat
  | 0, _, acc => acc.reverse
  | i + 1, recent, acc =>
    let x := (sigHi (recent.getD 1 0) + recent.getD 6 0 + sigLo (recent.getD 14 0)
              + recent.getD 15 0) % M32
    if x < M32 then scheduleLoop i (x :: recent.take 15) (x :: acc) else acc.reverse

/-- The 64 SHA-256 compression rounds, state threaded as eight words.  The
always-true bound check forces the two fresh words per round. -/
def rounds : List (Nat × Nat) → Nat → Nat → Nat → Nat → Nat → Nat → Nat → Nat → List Nat
  | [], a, b, c, d, e, f, g, h => [a, b, c, d, e, f, g, h]
  | (k, w) :: rest, a, b, c, d, e, f, g, h =>
    let t1 := (h + sumE e + chF e f g + k + w) % M32
    let t2 := (sumA a + majF a b c) % M32
    let a2 := (t1 + t2) % M32
    let e2 := (d + t1) % M32
    if a2 < M32 ∧ e2 < M32 then rounds rest a2 a b c e2 e f g else []

/-- The 16 big-endian 32-bit words of a 512-bit block held as one `Nat`
(fuel-indexed so the word `block >>> (32 * 15)` comes first). -/
def wordsOfBlock : Nat → Nat → List Nat
  | 0, _ => []
  | k + 1, block => ((block >>> (32 * k)) % M32) :: wordsOfBlock k block

/-- Compression of one 512-bit block (as a `Nat`) into the running hash state. -/
def compressBlock (hs : List Nat) (block : Nat) : List Nat :=
  let w16 := wordsOfBlock 16 block
  let w := w16 ++ scheduleLoop 48 w16.reverse []
  let st := rounds (k256.zip w)
      (hs.getD 0 0) (hs.getD 1 0) (hs.getD 2 0) (hs.getD 3 0)
      (hs.getD 4 0) (hs.getD 5 0) (hs.getD 6 0) (hs.getD 7 0)
  (hs.zip st).map (fun p => (p.1 + p.2) % M32)

/-- Left-to-right compression of `k` 512-bit blocks packed in one `Nat`. -/
def blocksLoop : Nat → Nat → List Nat → List Nat
  | 0, _, hs => hs
  | k + 1, data, hs => blocksLoop k (data % (1 <<< (512 * k))) (compressBlock hs (data >>> (512 * k)))

/-- Big-endian bytes of a 32-bit word. -/
def wordBytes (w : Nat) : List Nat := [w / 16777216 % 256, w / 65536 % 256, w / 256 % 256, w % 256]

/-- Big-endian packing of a byte list into a single `Nat` accumulator,
together with the byte count.  The always-true checks force both
accumulators to literals at each step. -/
def packLoop : List Nat → Nat → Nat → Nat × Nat
  | [], acc, len => (acc, len)
  | b :: rest, acc, len =>
    if acc < acc + 1 ∧ len < len + 1 then packLoop rest (acc * 256 + b) (len + 1)
    else (acc, len)

/-- Big-endian packing of a byte list into a single `Nat`, paired with its
length (packed so that kernel reduction works on machine-sized big integers
rather than deep list recursions). -/
def packBytesLen (bs : List Nat) : Nat × Nat := packLoop bs 0 0

/-- SHA-256 of a byte list, yielding the 32 digest bytes: standard padding
(`0x80`, zeros, 64-bit big-endian bit length) and block-wise compression. -/
def sha256 (msg : List Nat) : List Nat :=
  let pl := packBytesLen msg
  let L := pl.2
  let zeros := (119 - L % 64) % 64
  let padded := ((pl.1 * 256 + 128) <<< (8 * (zeros + 8))) + L * 8
  (blocksLoop ((L + 9 + zeros) / 64) padded h256).foldr (fun w acc => wordBytes w ++ acc) []

/-! ## Base64 and UTF-8 -/

def b64Alphabet : Str := ( "ABCDEFGHIJKLMNOPQRSTUVWXYZabcdefghijklmnopqrstuvwxyz0123456789+/").toList

/-- The base64 padding character, a literal equals sign (code point 61). -/
def b64Pad : Char := Char.ofNat 61

def b64c (n : Nat) : Char := b64Alphabet.getD n (Char.ofNat 65)

/-- Standard base64 encoding of a byte list. -/
def b64encode : List Nat → Str
  | [] => []
  | [a] => [b64c (a / 4), b64c (a % 4 * 16), b64Pad, b64Pad]
  | [a, b] => [b64c (a / 4), b64c (a % 4 * 16 + b / 16), b64c (b % 16 * 4), b64Pad]
  | a :: b :: c :: rest =>
    b64c (a / 4) :: b64c (a % 4 * 16 + b / 16) :: b64c (b % 16 * 4 + c / 64) :: b64c (c % 64)
      :: b64encode rest

/-- UTF-8 encoding of one character (code point to 1-4 bytes). -/
def utf8Char (ch : Char) : List Nat :=
  let n := ch.toNat
  if n < 128 then [n]
  else if n < 2048 then [192 + n / 64, 128 + n % 64]
  else if n < 65536 then [224 + n / 4096, 128 + n / 64 % 64, 128 + n % 64]
  else [240 + n / 262144, 128 + n / 4096 % 64, 128 + n / 64 % 64, 128 + n % 64]

/-- UTF-8 encoding of a string (`str.encode` in the source). -/
def utf8Bytes (s : Str) : List Nat := (s.map utf8Char).flatten

/-! ## `datetime.utcfromtimestamp(t).isoformat()` -/

def pad2 (n : Nat) : Str := [Char.ofNat (48 + n / 10 % 10), Char.ofNat (48 + n % 10)]

def pad4 (n : Nat) : Str :=
  [Char.ofNat (48 + n / 1000 % 10), Char.ofNat (48 + n / 100 % 10),
   Char.ofNat (48 + n / 10 % 10), Char.ofNat (48 + n % 10)]

/-- `datetime.utcfromtimestamp(t).isoformat()` for whole-second epoch times:
the proleptic-Gregorian civil date (Hinnant's algorithm) and time of day,
rendered as `YYYY-MM-DDTHH:MM:SS`. -/
def isoformat (t : Int) : Str :=
  let days : Int := t.fdiv 86400
  let secs : Nat := (t - days * 86400).toNat
  let z : Int := days + 719468
  let era : Int := z.fdiv 146097
  let doe : Nat := (z - era * 146097).toNat
  let yoe : Nat := (doe - doe / 1460 + doe / 36524 - doe / 146096) / 365
  let doy : Nat := doe - (365 * yoe + yoe / 4 - yoe / 100)
  let mp : Nat := (5 * doy + 2) / 153
  let d : Nat := doy - (153 * mp + 2) / 5 + 1
  let m : Nat := if mp < 10 then mp + 3 else mp - 9
  let y : Int := (yoe : Int) + era * 400 + (if m ≤ 2 then 1 else 0)
  pad4 y.toNat ++ ( "-").toList ++ pad2 m ++ ( "-").toList ++ pad2 d ++ ( "T").toList ++
    pad2 (secs / 3600) ++ ( ":").toList ++ pad2 (secs % 3600 / 60) ++ ( ":").toList ++
    pad2 (secs % 60)

/-! ## The client configuration (`SAPSuccessFactorsClient.__init__`) -/

/-- Immutable configuration of `SAPSuccessFactorsClient` (both variants share
these fields; `api_base_url` is stored already right-stripped of a trailing
slash, as `__init__` does).  `private_key` holds the raw key string. -/
structure SAPSuccessFactorsClient where
  company_id : Str
  api_base_url : Str
  client_id : Str
  user_id : Str
  private_key : Str
deriving DecidableEq

/-- `f"{self.api_base_url}/oauth/token"`. -/
def token_url (c : SAPSuccessFactorsClient) : Str := c.api_base_url ++ ( "/oauth/token").toList

/-! ## Local SAML assertion construction (`generate_saml_assertion_local`,
`sap_sf_client2.py` lines 58-176).  The f-string template is transcribed as a
concatenation of its literal segments and interpolated values. -/

/-- The assertion template up to and including `ID="` (everything before the
interpolated `assertion_id`). -/
def rootIdMarker : Str :=
  ( "<saml2:Assertion xmlns:saml2=\x22urn:oasis:names:tc:SAML:2.0:assertion\x22 ID=\x22").toList

/-- The closing tag `</saml2:Issuer>` the signature is spliced after. -/
def issuerClose : Str := ( "</saml2:Issuer>").toList

/-- The assertion template from the start through the issuer's text (everything
before `</saml2:Issuer>`). -/
def spliceHead (c : SAPSuccessFactorsClient) (now : Int) (assertion_id : Str) : Str :=
  rootIdMarker ++ assertion_id ++ ( "\x22 IssueInstant=\x22").toList ++ isoformat now ++
    ( "Z\x22 Version=\x222.0\x22><saml2:Issuer>").toList ++ c.client_id

/-- The assertion template after `</saml2:Issuer>`: Subject (NameID,
SubjectConfirmation with Recipient and NotOnOrAfter), Conditions
(NotBefore `now - 600`, NotOnOrAfter `now + 600`, AudienceRestriction) and
AuthnStatement, exactly as in the source f-string. -/
def assertTail (c : SAPSuccessFactorsClient) (now : Int) : Str :=
  ( "<saml2:Subject><saml2:NameID Format=\x22urn:oasis:names:tc:SAML:1.1:nameid-format:unspecified\x22>").toList
    ++ c.user_id ++
  ( "</saml2:NameID><saml2:SubjectConfirmation Method=\x22urn:oasis:names:tc:SAML:2.0:cm:bearer\x22><saml2:SubjectConfirmationData NotOnOrAfter=\x22").toList
    ++ isoformat (now + 600) ++
  ( "Z\x22 Recipient=\x22").toList ++ token_url c ++
  ( "\x22/></saml2:SubjectConfirmation></saml2:Subject><saml2:Conditions NotBefore=\x22").toList
    ++ isoformat (now - 600) ++
  ( "Z\x22 NotOnOrAfter=\x22").toList ++ isoformat (now + 600) ++
  ( "Z\x22><saml2:AudienceRestriction><saml2:Audience>www.successfactors.com</saml2:Audience></saml2:AudienceRestriction></saml2:Conditions><saml2:AuthnStatement AuthnInstant=\x22").toList
    ++ isoformat now ++
  ( "Z\x22><saml2:AuthnContext><saml2:AuthnContextClassRef>urn:oasis:names:tc:SAML:2.0:ac:classes:PasswordProtectedTransport</saml2:AuthnContextClassRef></saml2:AuthnContext></saml2:AuthnStatement></saml2:Assertion>").toList

/-- The single-line unsigned assertion XML (source lines 78-98). -/
def assertion_xml (c : SAPSuccessFactorsClient) (now : Int) (assertion_id : Str) : Str :=
  spliceHead c now assertion_id ++ issuerClose ++ assertTail c now

/-- Base64 `DigestValue`: SHA-256 over the UTF-8 bytes of the serialized
assertion body (source lines 143-146). -/
def digest_value (c : SAPSuccessFactorsClient) (now : Int) (assertion_id : Str) : Str :=
  b64encode (sha256 (utf8Bytes (assertion_xml c now assertion_id)))

/-- The `SignedInfo` template up to and including `URI="` (before the `#` and
the interpolated `assertion_id`). -/
def refURIMarker : Str :=
  ( "<ds:SignedInfo xmlns:ds=\x22http://www.w3.org/2000/09/xmldsig#\x22><ds:CanonicalizationMethod Algorithm=\x22http://www.w3.org/2001/10/xml-exc-c14n#\x22/><ds:SignatureMethod Algorithm=\x22http://www.w3.org/2001/04/xmldsig-more#rsa-sha256\x22/><ds:Reference URI=\x22").toList

/-- `SignedInfo` with the digest substituted (source lines 128-141 and 148). -/
def signed_info_xml (assertion_id dv : Str) : Str :=
  refURIMarker ++ ( "#").toList ++ assertion_id ++
  ( "\x22><ds:Transforms><ds:Transform Algorithm=\x22http://www.w3.org/2000/09/xmldsig#enveloped-signature\x22/><ds:Transform Algorithm=\x22http://www.w3.org/2001/10/xml-exc-c14n#\x22/></ds:Transforms><ds:DigestMethod Algorithm=\x22http://www.w3.org/2001/04/xmlenc#sha256\x22/><ds:DigestValue>").toList
    ++ dv ++
  ( "</ds:DigestValue></ds:Reference></ds:SignedInfo>").toList

/-- Model of the external deterministic RSA-PKCS1v15-SHA256 signing primitive
(`private_key.sign(..., PKCS1v15(), SHA256())` from the `cryptography`
library): some fixed deterministic function of the key material and the
message bytes, modelled executably as a hash over both.  No claim in this
development depends on the signature bytes themselves. -/
def rsaSign (key : Str) (msg : List Nat) : List Nat := sha256 (utf8Bytes key ++ msg)

/-- Base64 `SignatureValue` over the `SignedInfo` bytes (source lines 150-156). -/
def signature_value (c : SAPSuccessFactorsClient) (now : Int) (assertion_id : Str) : Str :=
  b64encode (rsaSign c.private_key (utf8Bytes (signed_info_xml assertion_id (digest_value c now assertion_id))))

/-- The assembled `Signature` element (source lines 159-165). -/
def signature_xml (si sv : Str) : Str :=
  ( "<ds:Signature xmlns:ds=\x22http://www.w3.org/2000/09/xmldsig#\x22>").toList ++ si ++
  ( "<ds:SignatureValue>").toList ++ sv ++
  ( "</ds:SignatureValue><ds:KeyInfo><ds:X509Data><ds:X509Certificate>YOUR_PUBLIC_CERT_IF_NEEDED_BUT_OPTIONAL</ds:X509Certificate></ds:X509Data></ds:KeyInfo></ds:Signature>").toList

/-- Index of the first occurrence of `pat` in a string, like Python `str.find`
(but `none` instead of `-1` when absent). -/
def findSub (pat : Str) : Str → Option Nat
  | [] => if pat = [] then some 0 else none
  | c :: rest => if pat.isPrefixOf (c :: rest) then some 0 else (findSub pat rest).map (· + 1)

/-- `insert_pos = assertion_xml.find('</saml2:Issuer>') + len('</saml2:Issuer>')`
followed by the slice splice (source lines 168-170).  When `find` misses it
returns `-1` in Python, so the splice would land at index `14`; the `none`
branch reproduces that. -/
def spliceAfterIssuer (xml sig : Str) : Str :=
  match findSub issuerClose xml with
  | some i => xml.take (i + issuerClose.length) ++ sig ++ xml.drop (i + issuerClose.length)
  | none => xml.take 14 ++ sig ++ xml.drop 14

/-- The ephemeral per-request assertion data of `generate_saml_assertion_local`:
the drawn id, the computed time bounds, the unsigned and signed XML and the
final base64 payload.  The uuid4 draw (source line 74) enters as the
`assertion_id` argument. -/
structure AssertionRec where
  assertion_id : Str
  issued_at : Int
  not_before : Int
  not_on_or_after : Int
  xml : Str
  digest : Str
  final_xml : Str
  final_b64 : Str
deriving DecidableEq

/-- `generate_saml_assertion_local` (source lines 58-176): time bounds
`now - 600` / `now + 600` (lines 69-71), template serialization, digest,
`SignedInfo`, signature, splice after `</saml2:Issuer>`, base64 of the final
XML (the trailing `.replace('\n', '')` is a no-op since base64 output here
contains no newlines). -/
def generate_saml_assertion_local (c : SAPSuccessFactorsClient) (now : Int)
    (assertion_id : Str) : AssertionRec :=
  let not_before := now - 600
  let not_after := now + 600
  let xml := assertion_xml c now assertion_id
  let dv := digest_value c now assertion_id
  let si := signed_info_xml assertion_id dv
  let sv := signature_value c now assertion_id
  let fx := spliceAfterIssuer xml (signature_xml si sv)
  { assertion_id := assertion_id, issued_at := now, not_before := not_before,
    not_on_or_after := not_after, xml := xml, digest := dv, final_xml := fx,
    final_b64 := b64encode (utf8Bytes fx) }

/-- Time fields of `SAPSuccessFactorsAPI._generate_saml_assertion`
(`SFSF_OData_Query.py` lines 38-56): `now`, `expire = now + 600` (used as
both `NotOnOrAfter` bounds) and the inline `Conditions` attribute
`NotBefore = now - 30`; the drawn uuid4 `nonce` serves as the `ID`. -/
structure OdataAssertionRec where
  nonce : Str
  issued_at : Int
  not_before : Int
  not_on_or_after : Int
deriving DecidableEq

def odata_generate_saml_assertion (now : Int) (nonce : Str) : OdataAssertionRec :=
  { nonce := nonce, issued_at := now, not_before := now - 30, not_on_or_after := now + 600 }

/-! ## Request payloads -/

def grantTypeUrn : Str := ( "urn:ietf:params:oauth:grant-type:saml2-bearer").toList

/-- Form body of the token request (`sap_sf_client2.py` lines 197-202). -/
def grant_request_data (c : SAPSuccessFactorsClient) (saml_assertion : Str) : List (Str × Str) :=
  [(( "client_id").toList, c.client_id), (( "company_id").toList, c.company_id),
   (( "grant_type").toList, grantTypeUrn), (( "assertion").toList, saml_assertion)]

/-- Form body of the POST to `/oauth/idp` in `sap_sf_client.py`'s
`generate_saml_assertion` (lines 42-47). -/
def idp_request_data (c : SAPSuccessFactorsClient) : List (Str × Str) :=
  [(( "client_id").toList, c.client_id), (( "user_id").toList, c.user_id),
   (( "token_url").toList, token_url c), (( "private_key").toList, c.private_key)]

/-- Form body of the token request in `sap_sf_client.py` (lines 99-104). -/
def client1_grant_request_data (c : SAPSuccessFactorsClient) (saml_assertion : Str) :
    List (Str × Str) :=
  [(( "company_id").toList, c.company_id), (( "client_id").toList, c.client_id),
   (( "grant_type").toList, grantTypeUrn), (( "assertion").toList, saml_assertion)]

def lookupField : List (Str × Str) → Str → Option Str
  | [], _ => none
  | (k, v) :: rest, key => if k = key then some v else lookupField rest key

/-! ## Token exchange and caching (`get_access_token`, `sap_sf_client2.py`
lines 178-221; `sap_sf_client.py` lines 77-128 is line-for-line the same
caching and exchange logic). -/

/-- A JSON value in the token-endpoint response body (Python is dynamically
typed, so `expires_in` may arrive as a string). -/
inductive JsonVal where
  | jstr (s : String)
  | jnum (n : Int)
deriving DecidableEq

/-- What the POST to the grant endpoint yields: transport failure, or a
response with a status and a body (`none` models a non-JSON body on which
`response.json()` raises). -/
inductive NetResult where
  | down
  | resp (status : Nat) (body : Option (List (String × JsonVal)))
deriving DecidableEq

/-- The exception that aborts `get_access_token`: a transport-level
`RequestException`, the `HTTPError` from `raise_for_status`, a JSON decode
failure, the `KeyError` on a missing `access_token`, or the `TypeError` from
`expires_in - 300` when `expires_in` is not a number. -/
inductive ExchErr where
  | requestError
  | httpError (status : Nat)
  | jsonError
  | keyError
  | typeError
deriving DecidableEq

inductive TokenOutcome where
  | ok (token : JsonVal)
  | error (e : ExchErr)
deriving DecidableEq

/-- The mutable token state on the client object: `self.access_token` and
`self.token_expiry` (a wall-clock instant, modelled as an integer). -/
structure ClientState where
  access_token : Option JsonVal
  token_expiry : Option Int
deriving DecidableEq

/-- Result of one `get_access_token` call: the returned token or the raised
exception, the client state after the call, and how many token-endpoint
network calls were performed. -/
structure StepResult where
  result : TokenOutcome
  state : ClientState
  calls : Nat
deriving DecidableEq

def jlookup : List (String × JsonVal) → String → Option JsonVal
  | [], _ => none
  | (k, v) :: rest, key => if k = key then some v else jlookup rest key

/-- `dict.get(key, default)`. -/
def jlookupD (kvs : List (String × JsonVal)) (key : String) (d : JsonVal) : JsonVal :=
  (jlookup kvs key).getD d

/-- Python truthiness of the cached token value: the empty string and the
number zero are falsy. -/
def truthy : JsonVal → Bool
  | JsonVal.jstr s => if s = "" then false else true
  | JsonVal.jnum n => if n = 0 then false else true

/-- The fixed safety margin subtracted from `expires_in` (the literal `300`
at `sap_sf_client2.py` line 211 / `sap_sf_client.py` line 115). -/
def safetyMargin : Int := 300

/-- The exchange part of `get_access_token` (source lines 204-221), reached on
a cache miss: POST, `raise_for_status` (raises for 400-599),
`response.json()`, `token_data['access_token']` assigned to
`self.access_token` first, then `token_data.get('expires_in', 86399)` and
`self.token_expiry = now + (expires_in - 300)`.  A non-numeric `expires_in`
raises `TypeError` after `self.access_token` was already overwritten. -/
def exchange (st : ClientState) (now : Int) (net : NetResult) : StepResult :=
  match net with
  | NetResult.down => ⟨TokenOutcome.error ExchErr.requestError, st, 1⟩
  | NetResult.resp status body =>
    if 400 ≤ status ∧ status < 600 then
      ⟨TokenOutcome.error (ExchErr.httpError status), st, 1⟩
    else
      match body with
      | none => ⟨TokenOutcome.error ExchErr.jsonError, st, 1⟩
      | some kvs =>
        match jlookup kvs "access_token" with
        | none => ⟨TokenOutcome.error ExchErr.keyError, st, 1⟩
        | some tok =>
          match jlookupD kvs "expires_in" (JsonVal.jnum 86399) with
          | JsonVal.jstr _ => ⟨TokenOutcome.error ExchErr.typeError, ⟨some tok, st.token_expiry⟩, 1⟩
          | JsonVal.jnum k => ⟨TokenOutcome.ok tok, ⟨some tok, some (now + (k - safetyMargin))⟩, 1⟩

/-- `get_access_token` (source lines 178-221): the cache check
`if self.access_token and self.token_expiry and datetime.now() < self.token_expiry`
(Python truthiness on the token string), returning the cached token with no
network call on a hit, otherwise performing the exchange. -/
def get_access_token (st : ClientState) (now : Int) (net : NetResult) : StepResult :=
  match st.access_token, st.token_expiry with
  | some t, some e =>
    if truthy t = true ∧ now < e then ⟨TokenOutcome.ok t, st, 0⟩ else exchange st now net
  | _, _ => exchange st now net

/-- The cache-hit condition of the source's line
`if self.access_token and self.token_expiry and datetime.now() < self.token_expiry`. -/
def cacheHit (st : ClientState) (now : Int) : Prop :=
  match st.access_token, st.token_expiry with
  | some t, some e => truthy t = true ∧ now < e
  | _, _ => False

/-! ## Attribute extraction observers -/

/-- `true` on every character except the XML attribute delimiter `"`. -/
def notQuote (ch : Char) : Bool := if ch = quoteChar then false else true

/-- The value of the root `ID` attribute: the characters after the template's
`ID="` opener, up to the closing quote. -/
def rootIdOf (xml : Str) : Str := (xml.drop rootIdMarker.length).takeWhile notQuote

/-- The value of the `ds:Reference` element's `URI` attribute: the characters
after the template's `URI="` opener, up to the closing quote. -/
def refURIof (si : Str) : Str := (si.drop refURIMarker.length).takeWhile notQuote

/-! ## Concrete instantiation data -/

/-- A concrete configuration used to instantiate theorems on explicit inputs. -/
def ctxDemo : SAPSuccessFactorsClient :=
  { company_id := ( "acme").toList, api_base_url := ( "https://x").toList,
    client_id := ( "app1").toList, user_id := ( "EY001").toList,
    private_key := ( "TESTKEY").toList }

/-- A second configuration differing from `ctxDemo` only in `company_id` and
`private_key` (the fields the assertion body does not mention). -/
def ctxDemo2 : SAPSuccessFactorsClient :=
  { company_id := ( "globex").toList, api_base_url := ( "https://x").toList,
    client_id := ( "app1").toList, user_id := ( "EY001").toList,
    private_key := ( "OTHERKEY").toList }

/-! ## Helper lemmas -/

theorem takeLenAppend {α : Type} (l₁ l₂ : List α) (n : Nat) :
    (l₁ ++ l₂).take (l₁.length + n) = l₁ ++ l₂.take n := by
  induction l₁ with
  | nil => simp
  | cons a t ih =>
    simp only [List.cons_append, List.length_cons]
    rw [show t.length + 1 + n = (t.length + n) + 1 by omega]
    simp [List.take_succ_cons, ih]

theorem dropLenAppend {α : Type} (l₁ l₂ : List α) (n : Nat) :
    (l₁ ++ l₂).drop (l₁.length + n) = l₂.drop n := by
  induction l₁ with
  | nil => simp
  | cons a t ih =>
    simp only [List.cons_append, List.length_cons]
    rw [show t.length + 1 + n = (t.length + n) + 1 by omega]
    simp [List.drop_succ_cons, ih]

theorem dropLen {α : Type} (l₁ l₂ : List α) : (l₁ ++ l₂).drop l₁.length = l₂ := by
  simp

theorem takeLen {α : Type} (l₁ l₂ : List α) : (l₁ ++ l₂).take l₁.length = l₁ := by
  simp

theorem takeWhileNoQuote (l r : Str) (h : quoteChar ∉ l) :
    (l ++ quoteChar :: r).takeWhile notQuote = l := by
  induction l with
  | nil => simp [List.takeWhile_cons, notQuote]
  | cons a t ih =>
    simp only [List.mem_cons, not_or] at h
    have ha : notQuote a = true := by
      simp [notQuote]
      exact fun heq => h.1 heq.symm
    simp [List.takeWhile_cons, ha, ih h.2]

theorem quote_split_issueInstant :
    ( "\x22 IssueInstant=\x22").toList = quoteChar :: ( " IssueInstant=\x22").toList := by decide

theorem quote_split_transforms :
    ( "\x22><ds:Transforms><ds:Transform Algorithm=\x22http://www.w3.org/2000/09/xmldsig#enveloped-signature\x22/><ds:Transform Algorithm=\x22http://www.w3.org/2001/10/xml-exc-c14n#\x22/></ds:Transforms><ds:DigestMethod Algorithm=\x22http://www.w3.org/2001/04/xmlenc#sha256\x22/><ds:DigestValue>").toList
      = quoteChar :: ( "><ds:Transforms><ds:Transform Algorithm=\x22http://www.w3.org/2000/09/xmldsig#enveloped-signature\x22/><ds:Transform Algorithm=\x22http://www.w3.org/2001/10/xml-exc-c14n#\x22/></ds:Transforms><ds:DigestMethod Algorithm=\x22http://www.w3.org/2001/04/xmlenc#sha256\x22/><ds:DigestValue>").toList := by
  decide

/-- On any assertion built by the template, the root `ID` attribute reads back
exactly the interpolated `assertion_id` (for ids not containing a quote). -/
theorem rootIdOf_assertion_xml (c : SAPSuccessFactorsClient) (now : Int) (id : Str)
    (h : quoteChar ∉ id) : rootIdOf (assertion_xml c now id) = id := by
  unfold rootIdOf assertion_xml spliceHead
  rw [quote_split_issueInstant]
  simp only [List.append_assoc, List.cons_append]
  rw [dropLen]
  exact takeWhileNoQuote id _ h

/-- On any `SignedInfo` built by the template, the `Reference URI` attribute
reads back `#` followed by the interpolated `assertion_id`. -/
theorem refURIof_signed_info (id dv : Str) (h : quoteChar ∉ id) :
    refURIof (signed_info_xml id dv) = ( "#").toList ++ id := by
  unfold refURIof signed_info_xml
  rw [quote_split_transforms]
  simp only [List.append_assoc, List.cons_append]
  rw [dropLen]
  have hs : ( "#").toList = [Char.ofNat 35] := by decide
  rw [hs]
  simp only [List.cons_append, List.nil_append, List.takeWhile_cons]
  simp only [show notQuote (Char.ofNat 35) = true from by decide, if_true]
  rw [takeWhileNoQuote id _ h]

/-- Under the hypothesis that `str.find` locates `</saml2:Issuer>` at its
structural position (true of every well-formed instantiation; discharged by
computation at concrete inputs), the splice of source lines 168-170 inserts
`sig` right after the issuer element. -/
theorem spliceAfterIssuer_decomp (c : SAPSuccessFactorsClient) (now : Int) (id sig : Str)
    (h : findSub issuerClose (assertion_xml c now id) = some (spliceHead c now id).length) :
    spliceAfterIssuer (assertion_xml c now id) sig
      = spliceHead c now id ++ issuerClose ++ sig ++ assertTail c now := by
  unfold spliceAfterIssuer
  rw [h]
  show (assertion_xml c now id).take _ ++ sig ++ (assertion_xml c now id).drop _ = _
  have hx : assertion_xml c now id
      = spliceHead c now id ++ issuerClose ++ assertTail c now := rfl
  rw [hx, List.append_assoc (spliceHead c now id) issuerClose (assertTail c now),
    takeLenAppend, dropLenAppend, takeLen, dropLen]

/-- The `final_xml` field of the generated record, unfolded. -/
theorem generate_final_xml (c : SAPSuccessFactorsClient) (now : Int) (id : Str) :
    (generate_saml_assertion_local c now id).final_xml
      = spliceAfterIssuer (assertion_xml c now id)
          (signature_xml (signed_info_xml id (digest_value c now id)) (signature_value c now id)) :=
  rfl

/-! ## Token-manager helper lemmas -/

theorem get_access_token_hit (st : ClientState) (now : Int) (net : NetResult)
    (t : JsonVal) (e : Int) (h1 : st.access_token = some t) (h2 : st.token_expiry = some e)
    (h3 : truthy t = true) (h4 : now < e) :
    get_access_token st now net = ⟨TokenOutcome.ok t, st, 0⟩ := by
  rcases st with ⟨a, x⟩
  simp only at h1 h2
  subst h1
  subst h2
  simp [get_access_token, h3, h4]

theorem get_access_token_split (st : ClientState) (now : Int) (net : NetResult) :
    (∃ t, st.access_token = some t ∧ get_access_token st now net = ⟨TokenOutcome.ok t, st, 0⟩)
    ∨ get_access_token st now net = exchange st now net := by
  rcases st with ⟨a, x⟩
  rcases a with _ | t <;> rcases x with _ | e
  · right; rfl
  · right; rfl
  · right; rfl
  · by_cases hc : truthy t = true ∧ now < e
    · exact Or.inl ⟨t, rfl, by simp [get_access_token, hc]⟩
    · right
      simp [get_access_token, hc]

theorem get_access_token_miss (st : ClientState) (now : Int) (net : NetResult)
    (h : ¬ cacheHit st now) :
    get_access_token st now net = exchange st now net := by
  rcases st with ⟨a, x⟩
  rcases a with _ | t <;> rcases x with _ | e
  · rfl
  · rfl
  · rfl
  · simp only [cacheHit] at h
    simp [get_access_token, h]

/-- Every path through the exchange: a non-`TypeError` failure leaving the
state intact, the `TypeError` partial update, or a success. -/
theorem exchange_characterization (st : ClientState) (now : Int) (net : NetResult) :
    (∃ er, er ≠ ExchErr.typeError ∧ exchange st now net = ⟨TokenOutcome.error er, st, 1⟩)
    ∨ (∃ tok, exchange st now net
        = ⟨TokenOutcome.error ExchErr.typeError, ⟨some tok, st.token_expiry⟩, 1⟩)
    ∨ (∃ tok k, exchange st now net
        = ⟨TokenOutcome.ok tok, ⟨some tok, some (now + (k - safetyMargin))⟩, 1⟩) := by
  rcases net with _ | ⟨status, body⟩
  · exact Or.inl ⟨ExchErr.requestError, by simp, rfl⟩
  · unfold exchange
    dsimp only
    by_cases h4 : 400 ≤ status ∧ status < 600
    · rw [if_pos h4]
      exact Or.inl ⟨ExchErr.httpError status, by simp, rfl⟩
    · rw [if_neg h4]
      rcases body with _ | kvs
      · exact Or.inl ⟨ExchErr.jsonError, by simp, rfl⟩
      · dsimp only
        rcases hl : jlookup kvs ( "access_token") with _ | tok
        · exact Or.inl ⟨ExchErr.keyError, by simp, rfl⟩
        · rcases hd : jlookupD kvs ( "expires_in") (JsonVal.jnum 86399) with sv | k
          · exact Or.inr (Or.inl ⟨tok, rfl⟩)
          · exact Or.inr (Or.inr ⟨tok, k, rfl⟩)

theorem exchange_success (st : ClientState) (now : Int) (status : Nat)
    (kvs : List (String × JsonVal)) (tok : JsonVal) (k : Int)
    (h1 : ¬(400 ≤ status ∧ status < 600))
    (h2 : jlookup kvs ( "access_token") = some tok)
    (h3 : jlookup kvs ( "expires_in") = some (JsonVal.jnum k)) :
    exchange st now (NetResult.resp status (some kvs))
      = ⟨TokenOutcome.ok tok, ⟨some tok, some (now + (k - safetyMargin))⟩, 1⟩ := by
  have hd : jlookupD kvs ( "expires_in") (JsonVal.jnum 86399) = JsonVal.jnum k := by
    unfold jlookupD
    rw [h3]
    rfl
  unfold exchange
  dsimp only
  rw [if_neg h1, h2, hd]

theorem get_ok_state (st : ClientState) (now : Int) (net : NetResult) (t : JsonVal)
    (h : (get_access_token st now net).result = TokenOutcome.ok t) :
    (get_access_token st now net).state.access_token = some t := by
  rcases get_access_token_split st now net with ⟨t2, ha, heq⟩ | heq
  · rw [heq] at h ⊢
    simp only at h ⊢
    have : t2 = t := by simpa using h
    rw [ha, this]
  · rw [heq] at h ⊢
    rcases exchange_characterization st now net with ⟨er, _, hx⟩ | ⟨tok, hx⟩ | ⟨tok, k, hx⟩
    · rw [hx] at h
      simp at h
    · rw [hx] at h
      simp at h
    · rw [hx] at h ⊢
      have : tok = t := by simpa using h
      simp [this]

theorem get_calls_le_one (st : ClientState) (now : Int) (net : NetResult) :
    (get_access_token st now net).calls ≤ 1 := by
  rcases get_access_token_split st now net with ⟨t2, _, heq⟩ | heq
  · rw [heq]
    exact Nat.zero_le 1
  · rw [heq]
    rcases exchange_characterization st now net with ⟨er, _, hx⟩ | ⟨tok, hx⟩ | ⟨tok, k, hx⟩ <;>
      rw [hx]

theorem rootIdOf_spliceHead_append (c : SAPSuccessFactorsClient) (now : Int) (id r : Str)
    (h : quoteChar ∉ id) :
    rootIdOf (spliceHead c now id ++ r) = id := by
  unfold rootIdOf spliceHead
  rw [quote_split_issueInstant]
  simp only [List.append_assoc, List.cons_append]
  rw [dropLen]
  exact takeWhileNoQuote id _ h

/-! ## The claims -/

/-- Claim C4, amended: `generate_saml_assertion_local` uses exactly
`notBefore = issuedAt - 600` and `notOnOrAfter = issuedAt + 600` (window
width 1200 s = 20 min, strictly ordered), while `_generate_saml_assertion`
in `SFSF_OData_Query.py` uses `notBefore = issuedAt - 30` and
`notOnOrAfter = issuedAt + 600` (width 630 s, also strictly ordered). -/
theorem C4_validity_windows (c : SAPSuccessFactorsClient) (now : Int) (id nonce : Str) :
    ((generate_saml_assertion_local c now id).not_before
        = (generate_saml_assertion_local c now id).issued_at - 600
      ∧ (generate_saml_assertion_local c now id).not_on_or_after
        = (generate_saml_assertion_local c now id).issued_at + 600
      ∧ (generate_saml_assertion_local c now id).not_before
          < (generate_saml_assertion_local c now id).issued_at
      ∧ (generate_saml_assertion_local c now id).issued_at
          < (generate_saml_assertion_local c now id).not_on_or_after
      ∧ (generate_saml_assertion_local c now id).not_on_or_after
          - (generate_saml_assertion_local c now id).not_before = 1200)
    ∧ ((odata_generate_saml_assertion now nonce).not_before
        = (odata_generate_saml_assertion now nonce).issued_at - 30
      ∧ (odata_generate_saml_assertion now nonce).not_on_or_after
        = (odata_generate_saml_assertion now nonce).issued_at + 600
      ∧ (odata_generate_saml_assertion now nonce).not_before
          < (odata_generate_saml_assertion now nonce).issued_at
      ∧ (odata_generate_saml_assertion now nonce).issued_at
          < (odata_generate_saml_assertion now nonce).not_on_or_after
      ∧ (odata_generate_saml_assertion now nonce).not_on_or_after
          - (odata_generate_saml_assertion now nonce).not_before = 630) := by
  constructor <;> refine ⟨?_, ?_, ?_, ?_, ?_⟩ <;>
    simp [generate_saml_assertion_local, odata_generate_saml_assertion]

/-- Claim C4, counterexample: the OData-variant assertion at `now = 0` has
`notBefore = -30`, not `issuedAt - 600`, and its window width is 630 s,
not 1200 s. -/
theorem C4_counterexample :
    (odata_generate_saml_assertion 0 []).not_before
        ≠ (odata_generate_saml_assertion 0 []).issued_at - 600
    ∧ (odata_generate_saml_assertion 0 []).not_on_or_after
        - (odata_generate_saml_assertion 0 []).not_before ≠ 1200 := by
  decide

/-- Claim C8: the assertion id (and the root `ID` attribute of the produced
XML) is exactly the freshly drawn uuid nonce, so two runs whose independent
draws differ produce two distinct assertion ids, in both builders. -/
theorem C8_distinct_ids (c : SAPSuccessFactorsClient) (now : Int) (id1 id2 : Str)
    (hq1 : quoteChar ∉ id1) (hq2 : quoteChar ∉ id2) (hne : id1 ≠ id2) :
    (generate_saml_assertion_local c now id1).assertion_id
        ≠ (generate_saml_assertion_local c now id2).assertion_id
    ∧ rootIdOf (generate_saml_assertion_local c now id1).xml
        ≠ rootIdOf (generate_saml_assertion_local c now id2).xml
    ∧ (odata_generate_saml_assertion now id1).nonce
        ≠ (odata_generate_saml_assertion now id2).nonce := by
  have x1 : (generate_saml_assertion_local c now id1).xml = assertion_xml c now id1 := rfl
  have x2 : (generate_saml_assertion_local c now id2).xml = assertion_xml c now id2 := rfl
  refine ⟨hne, ?_, hne⟩
  rw [x1, x2, rootIdOf_assertion_xml c now id1 hq1, rootIdOf_assertion_xml c now id2 hq2]
  exact hne

theorem C8_distinct_ids_witness :
    (generate_saml_assertion_local ctxDemo 0 ( "a").toList).assertion_id
        ≠ (generate_saml_assertion_local ctxDemo 0 ( "b").toList).assertion_id
    ∧ rootIdOf (generate_saml_assertion_local ctxDemo 0 ( "a").toList).xml
        ≠ rootIdOf (generate_saml_assertion_local ctxDemo 0 ( "b").toList).xml
    ∧ (odata_generate_saml_assertion 0 ( "a").toList).nonce
        ≠ (odata_generate_saml_assertion 0 ( "b").toList).nonce :=
  C8_distinct_ids ctxDemo 0 (( "a").toList) (( "b").toList) (by decide) (by decide) (by decide)

/-- Claim C3, amended: the step-4 digest is a deterministic function of the
client id, subject user id, base URL, the (mocked) clock and the drawn
assertion id alone: configurations differing in `company_id` or in the
signing key yield the identical base64 `DigestValue`.  (Two runs that draw
different assertion ids do not: see the counterexample.) -/
theorem C3_digest_deterministic (c1 c2 : SAPSuccessFactorsClient) (now : Int) (id : Str)
    (h1 : c1.client_id = c2.client_id) (h2 : c1.user_id = c2.user_id)
    (h3 : c1.api_base_url = c2.api_base_url) :
    digest_value c1 now id = digest_value c2 now id := by
  unfold digest_value assertion_xml spliceHead assertTail token_url
  rw [h1, h2, h3]

theorem C3_digest_deterministic_witness :
    ctxDemo.company_id ≠ ctxDemo2.company_id
    ∧ ctxDemo.private_key ≠ ctxDemo2.private_key
    ∧ digest_value ctxDemo 0 ( "nonce1").toList = digest_value ctxDemo2 0 ( "nonce1").toList :=
  ⟨by decide, by decide, C3_digest_deterministic ctxDemo ctxDemo2 0 (( "nonce1").toList) rfl rfl rfl⟩

theorem digest_value_at_a :
    digest_value ctxDemo 0 ( "a").toList
      = ( "XGkKpW/qiTD7txh9cP9tW8V2ChP/3KRYwYDKVSsYjOA=").toList := by
  decide

theorem digest_value_at_b :
    digest_value ctxDemo 0 ( "b").toList
      = ( "JHJvhSjjlXbmC/1K4DZCQcWhtjmeuhv785kH1gU2dhU=").toList := by
  decide

/-- Claim C3, counterexample: two runs with the same configuration and the
same mocked clock but different drawn assertion ids produce different
digests (the id is interpolated into the digested bytes). -/
theorem C3_counterexample :
    digest_value ctxDemo 0 ( "a").toList ≠ digest_value ctxDemo 0 ( "b").toList := by
  rw [digest_value_at_a, digest_value_at_b]
  decide

/-- Claim C5: the `Reference URI` inside the embedded signature is `#`
followed by exactly the root `ID` attribute of the final signed assertion,
and the final document embeds that `SignedInfo` right after the issuer. -/
theorem C5_reference_uri_matches_id (c : SAPSuccessFactorsClient) (now : Int) (id : Str)
    (hq : quoteChar ∉ id)
    (hf : findSub issuerClose (assertion_xml c now id) = some (spliceHead c now id).length) :
    refURIof (signed_info_xml id (digest_value c now id))
        = ( "#").toList ++ rootIdOf (generate_saml_assertion_local c now id).final_xml
    ∧ (generate_saml_assertion_local c now id).final_xml
        = spliceHead c now id ++ issuerClose
          ++ signature_xml (signed_info_xml id (digest_value c now id)) (signature_value c now id)
          ++ assertTail c now := by
  have hd : (generate_saml_assertion_local c now id).final_xml
      = spliceHead c now id ++ issuerClose
        ++ signature_xml (signed_info_xml id (digest_value c now id)) (signature_value c now id)
        ++ assertTail c now := by
    rw [generate_final_xml]
    exact spliceAfterIssuer_decomp c now id _ hf
  refine ⟨?_, hd⟩
  rw [refURIof_signed_info id _ hq, hd]
  rw [show spliceHead c now id ++ issuerClose
        ++ signature_xml (signed_info_xml id (digest_value c now id)) (signature_value c now id)
        ++ assertTail c now
      = spliceHead c now id ++ (issuerClose
        ++ (signature_xml (signed_info_xml id (digest_value c now id)) (signature_value c now id)
        ++ assertTail c now)) from by simp [List.append_assoc]]
  rw [rootIdOf_spliceHead_append c now id _ hq]

theorem C5_reference_uri_matches_id_witness :
    refURIof (signed_info_xml ( "abc123").toList (digest_value ctxDemo 0 ( "abc123").toList))
        = ( "#").toList
          ++ rootIdOf (generate_saml_assertion_local ctxDemo 0 ( "abc123").toList).final_xml
    ∧ (generate_saml_assertion_local ctxDemo 0 ( "abc123").toList).final_xml
        = spliceHead ctxDemo 0 ( "abc123").toList ++ issuerClose
          ++ signature_xml
              (signed_info_xml ( "abc123").toList (digest_value ctxDemo 0 ( "abc123").toList))
              (signature_value ctxDemo 0 ( "abc123").toList)
          ++ assertTail ctxDemo 0 :=
  C5_reference_uri_matches_id ctxDemo 0 (( "abc123").toList) (by decide) (by decide)

/-- Claim C1, amended: every failing `get_access_token` call leaves
`token_expiry` unchanged, and every failure other than the `TypeError`
raised by a present but non-numeric `expires_in` leaves the whole cached
state unchanged (that one path overwrites `access_token` before raising). -/
theorem C1_failure_preserves_cache (st : ClientState) (now : Int) (net : NetResult)
    (er : ExchErr) (h : (get_access_token st now net).result = TokenOutcome.error er) :
    (er ≠ ExchErr.typeError → (get_access_token st now net).state = st)
    ∧ (get_access_token st now net).state.token_expiry = st.token_expiry := by
  rcases get_access_token_split st now net with ⟨t, _, heq⟩ | heq
  · rw [heq] at h
    simp at h
  · rw [heq] at h ⊢
    rcases exchange_characterization st now net with ⟨er2, hne, hx⟩ | ⟨tok, hx⟩ | ⟨tok, k, hx⟩
    · rw [hx] at h ⊢
      exact ⟨fun _ => rfl, rfl⟩
    · rw [hx] at h ⊢
      have h5 : ExchErr.typeError = er := by simpa using h
      exact ⟨fun hne2 => absurd h5.symm hne2, rfl⟩
    · rw [hx] at h
      simp at h

theorem C1_failure_preserves_cache_witness :
    (get_access_token ⟨some (JsonVal.jstr ( "old")), some 50⟩ 100 (NetResult.resp 500 none)).state
      = ⟨some (JsonVal.jstr ( "old")), some 50⟩ :=
  (C1_failure_preserves_cache ⟨some (JsonVal.jstr ( "old")), some 50⟩ 100
    (NetResult.resp 500 none) (ExchErr.httpError 500) (by decide)).1 (by decide)

/-- Claim C1, counterexample: a 200 response whose body carries a string
`expires_in` makes the call raise after `self.access_token` was already
overwritten — a partial update on an error path. -/
theorem C1_counterexample_partial_update :
    (get_access_token ⟨none, none⟩ 0 (NetResult.resp 200 (some
        [( "access_token", JsonVal.jstr ( "tok123")),
         ( "expires_in", JsonVal.jstr ( "not-a-number"))]))).result
      = TokenOutcome.error ExchErr.typeError
    ∧ (get_access_token ⟨none, none⟩ 0 (NetResult.resp 200 (some
        [( "access_token", JsonVal.jstr ( "tok123")),
         ( "expires_in", JsonVal.jstr ( "not-a-number"))]))).state
      ≠ (⟨none, none⟩ : ClientState)
    ∧ (get_access_token ⟨none, none⟩ 0 (NetResult.resp 200 (some
        [( "access_token", JsonVal.jstr ( "tok123")),
         ( "expires_in", JsonVal.jstr ( "not-a-number"))]))).state.access_token
      = some (JsonVal.jstr ( "tok123")) := by
  decide

/-- Claim C2, amended: the safety margin is the positive constant 300 s, and
whenever the server-reported `expires_in` strictly exceeds it the newly
cached token satisfies `now < expiresAt` at caching time.  (Nothing enforces
`expires_in > 300`: see the counterexample.) -/
theorem C2_margin_validity (st : ClientState) (now : Int) (status : Nat)
    (kvs : List (String × JsonVal)) (tok : JsonVal) (k : Int)
    (h0 : ¬ cacheHit st now) (h1 : ¬(400 ≤ status ∧ status < 600))
    (h2 : jlookup kvs ( "access_token") = some tok)
    (h3 : jlookup kvs ( "expires_in") = some (JsonVal.jnum k))
    (h4 : safetyMargin < k) :
    0 < safetyMargin
    ∧ (get_access_token st now (NetResult.resp status (some kvs))).state.token_expiry
        = some (now + (k - safetyMargin))
    ∧ now < now + (k - safetyMargin) := by
  rw [get_access_token_miss st now _ h0, exchange_success st now status kvs tok k h1 h2 h3]
  have h5 : (300 : Int) < k := h4
  refine ⟨by norm_num [safetyMargin], rfl, ?_⟩
  rw [show safetyMargin = (300 : Int) from rfl]
  omega

theorem C2_margin_validity_witness :
    0 < safetyMargin
    ∧ (get_access_token ⟨none, none⟩ 0 (NetResult.resp 200 (some
        [( "access_token", JsonVal.jstr ( "tok123")),
         ( "expires_in", JsonVal.jnum 3600)]))).state.token_expiry
        = some ((0 : Int) + (3600 - safetyMargin))
    ∧ (0 : Int) < 0 + (3600 - safetyMargin) :=
  C2_margin_validity ⟨none, none⟩ 0 200
    [( "access_token", JsonVal.jstr ( "tok123")), ( "expires_in", JsonVal.jnum 3600)]
    (JsonVal.jstr ( "tok123")) 3600
    (by simp [cacheHit]) (by omega) (by decide) (by decide) (by decide)

/-- Claim C2, counterexample: a successful exchange with `expires_in = 100`
(smaller than the 300 s margin) is accepted and cached with
`expiresAt = now - 200`, i.e. the token enters the cache already expired. -/
theorem C2_counterexample :
    (get_access_token ⟨none, none⟩ 0 (NetResult.resp 200 (some
        [( "access_token", JsonVal.jstr ( "t")),
         ( "expires_in", JsonVal.jnum 100)]))).result
      = TokenOutcome.ok (JsonVal.jstr ( "t"))
    ∧ (get_access_token ⟨none, none⟩ 0 (NetResult.resp 200 (some
        [( "access_token", JsonVal.jstr ( "t")),
         ( "expires_in", JsonVal.jnum 100)]))).state.token_expiry
      = some (-200)
    ∧ ¬((0 : Int) < -200) := by
  decide

/-- Claim C6, amended: a cache hit requires the cached token to be present,
truthy (a non-empty string) and unexpired; then the call returns it with the
state unchanged and zero network calls, and a second call within the stored
validity window is an identity on the state with zero further network calls
(so the pair of calls performs at most one token-exchange call). -/
theorem C6_cache_hit :
    (∀ (st : ClientState) (now : Int) (net : NetResult) (t : JsonVal) (e : Int),
        st.access_token = some t → truthy t = true → st.token_expiry = some e → now < e →
        get_access_token st now net = ⟨TokenOutcome.ok t, st, 0⟩)
    ∧ (∀ (st : ClientState) (now1 now2 : Int) (net1 net2 : NetResult) (t : JsonVal) (e : Int),
        (get_access_token st now1 net1).result = TokenOutcome.ok t → truthy t = true →
        (get_access_token st now1 net1).state.token_expiry = some e → now2 < e →
        get_access_token (get_access_token st now1 net1).state now2 net2
            = ⟨TokenOutcome.ok t, (get_access_token st now1 net1).state, 0⟩
          ∧ (get_access_token st now1 net1).calls ≤ 1) := by
  constructor
  · intro st now net t e h1 h2 h3 h4
    exact get_access_token_hit st now net t e h1 h3 h2 h4
  · intro st now1 now2 net1 net2 t e h1 h2 h3 h4
    exact ⟨get_access_token_hit _ now2 net2 t e (get_ok_state st now1 net1 t h1) h3 h2 h4,
      get_calls_le_one st now1 net1⟩

theorem C6_cache_hit_witness :
    get_access_token ⟨some (JsonVal.jstr ( "tok")), some 100⟩ 0 NetResult.down
      = ⟨TokenOutcome.ok (JsonVal.jstr ( "tok")), ⟨some (JsonVal.jstr ( "tok")), some 100⟩, 0⟩ :=
  C6_cache_hit.1 ⟨some (JsonVal.jstr ( "tok")), some 100⟩ 0 NetResult.down
    (JsonVal.jstr ( "tok")) 100 rfl (by decide) rfl (by decide)

/-- Claim C6, counterexample: a manager holding the present, unexpired cached
token `""` (Python-falsy) does not take the cache-hit path: the call performs
a network call and rewrites the state. -/
theorem C6_counterexample :
    (⟨some (JsonVal.jstr ( "")), some 100⟩ : ClientState).access_token
        = some (JsonVal.jstr ( ""))
    ∧ (0 : Int) < 100
    ∧ (get_access_token ⟨some (JsonVal.jstr ( "")), some 100⟩ 0 (NetResult.resp 200 (some
        [( "access_token", JsonVal.jstr ( "fresh")),
         ( "expires_in", JsonVal.jnum 3600)]))).calls = 1
    ∧ (get_access_token ⟨some (JsonVal.jstr ( "")), some 100⟩ 0 (NetResult.resp 200 (some
        [( "access_token", JsonVal.jstr ( "fresh")),
         ( "expires_in", JsonVal.jnum 3600)]))).state
      ≠ ⟨some (JsonVal.jstr ( "")), some 100⟩ := by
  decide

/-- Claim C7: a cache-missing call answered 2xx with a JSON body holding
`access_token` and a numeric `expires_in` returns exactly that token string
and stores it with `expiresAt = now + expires_in - 300`. -/
theorem C7_success_caches (st : ClientState) (now : Int) (status : Nat)
    (kvs : List (String × JsonVal)) (tok : String) (k : Int)
    (h0 : ¬ cacheHit st now) (h1 : 200 ≤ status) (h2 : status < 300)
    (h3 : jlookup kvs ( "access_token") = some (JsonVal.jstr tok))
    (h4 : jlookup kvs ( "expires_in") = some (JsonVal.jnum k)) :
    get_access_token st now (NetResult.resp status (some kvs))
      = ⟨TokenOutcome.ok (JsonVal.jstr tok),
         ⟨some (JsonVal.jstr tok), some (now + (k - safetyMargin))⟩, 1⟩ := by
  rw [get_access_token_miss st now _ h0]
  exact exchange_success st now status kvs (JsonVal.jstr tok) k (by omega) h3 h4

theorem C7_success_caches_witness :
    get_access_token ⟨none, none⟩ 0 (NetResult.resp 200 (some
        [( "access_token", JsonVal.jstr ( "tok123")), ( "expires_in", JsonVal.jnum 3600)]))
      = ⟨TokenOutcome.ok (JsonVal.jstr ( "tok123")),
         ⟨some (JsonVal.jstr ( "tok123")), some 3300⟩, 1⟩ := by
  rw [C7_success_caches ⟨none, none⟩ 0 200
    [( "access_token", JsonVal.jstr ( "tok123")), ( "expires_in", JsonVal.jnum 3600)]
    ( "tok123") 3600 (by simp [cacheHit]) (by omega) (by omega) (by decide) (by decide)]
  decide

/-- Claim C10: a 2xx response that carries `access_token` but omits
`expires_in` is not an error: the code substitutes the default 86399 s and
caches the token with `expiresAt = now + 86099`. -/
theorem C10_default_expiry (st : ClientState) (now : Int) (status : Nat)
    (kvs : List (String × JsonVal)) (tok : JsonVal)
    (h0 : ¬ cacheHit st now) (h1 : 200 ≤ status) (h2 : status < 300)
    (h3 : jlookup kvs ( "access_token") = some tok)
    (h4 : jlookup kvs ( "expires_in") = none) :
    get_access_token st now (NetResult.resp status (some kvs))
      = ⟨TokenOutcome.ok tok, ⟨some tok, some (now + 86099)⟩, 1⟩ := by
  have hd : jlookupD kvs ( "expires_in") (JsonVal.jnum 86399) = JsonVal.jnum 86399 := by
    unfold jlookupD
    rw [h4]
    rfl
  rw [get_access_token_miss st now _ h0]
  unfold exchange
  dsimp only
  rw [if_neg (by omega), h3, hd]
  dsimp only
  have harith : (86399 : Int) - safetyMargin = 86099 := by norm_num [safetyMargin]
  rw [harith]

theorem C10_default_expiry_witness :
    get_access_token ⟨none, none⟩ 0 (NetResult.resp 200 (some
        [( "access_token", JsonVal.jstr ( "tok123"))]))
      = ⟨TokenOutcome.ok (JsonVal.jstr ( "tok123")),
         ⟨some (JsonVal.jstr ( "tok123")), some 86099⟩, 1⟩ := by
  rw [C10_default_expiry ⟨none, none⟩ 0 200
    [( "access_token", JsonVal.jstr ( "tok123"))] (JsonVal.jstr ( "tok123"))
    (by simp [cacheHit]) (by omega) (by omega) (by decide) (by decide)]
  decide

/-- Claim C9, amended: the token-grant payload of the locally-signed variant
carries no `private_key` field and only the client id, company id, fixed
grant-type URN and the assertion; but `sap_sf_client.py`'s
assertion-generation request serializes the private key verbatim as its
`private_key` form field. -/
theorem C9_key_payloads (c : SAPSuccessFactorsClient) (a : Str) :
    lookupField (grant_request_data c a) (( "private_key").toList) = none
    ∧ (∀ kv ∈ grant_request_data c a,
        kv.2 = c.client_id ∨ kv.2 = c.company_id ∨ kv.2 = grantTypeUrn ∨ kv.2 = a)
    ∧ lookupField (idp_request_data c) (( "private_key").toList) = some c.private_key := by
  refine ⟨?_, ?_, ?_⟩
  · unfold grant_request_data
    simp only [lookupField]
    rw [if_neg (by decide), if_neg (by decide), if_neg (by decide), if_neg (by decide)]
  · intro kv hkv
    unfold grant_request_data at hkv
    simp only [List.mem_cons, List.not_mem_nil, or_false] at hkv
    rcases hkv with h | h | h | h <;> subst h <;> simp
  · unfold idp_request_data
    simp only [lookupField]
    rw [if_neg (by decide), if_neg (by decide), if_neg (by decide), if_pos (by decide)]

theorem C9_key_payloads_witness :
    lookupField (grant_request_data ctxDemo []) (( "private_key").toList) = none
    ∧ lookupField (idp_request_data ctxDemo) (( "private_key").toList)
        = some (( "TESTKEY").toList) :=
  ⟨(C9_key_payloads ctxDemo []).1, (C9_key_payloads ctxDemo []).2.2⟩

/-- Claim C9, counterexample: the `/oauth/idp` assertion-generation request of
`sap_sf_client.py` contains the private key itself as a form field. -/
theorem C9_counterexample :
    (( "private_key").toList, ( "TESTKEY").toList) ∈ idp_request_data ctxDemo := by
  decide
